import Mathlib

/-!
# Verification of the catalyst contrastive training core

Shallow embedding of the contrastive-learning orchestration core of the
`I8dNLo/catalyst` repository, namely:

* `catalyst/contrib/data/datawrappers/contrastive_dataset.py`
  (`ContrastiveDataset.__init__`, `__len__`, `__getitem__`), and
* `catalyst/runners/contrastive.py`
  (`IContrastiveRunner._process_batch`, `IContrastiveRunner._process_input`,
  `ContrastiveRunner.get_callbacks`).

Python values appearing in batches are modelled by the inductive `Value`
(an opaque atom, or a pair — a pair is exactly a Python value that a
two-target unpacking `a, b = v` accepts).  Python dictionaries are
modelled by association lists with insertion-order semantics: lookup
returns the first matching entry, and `setKey` (the semantics of
`d[k] = v` and of a `{**d, k: v}` literal entry) overwrites an existing
key in place and appends a fresh key at the end, exactly as CPython
dictionaries behave.  Exceptions are modelled by `Except PyError`; each
`PyError` constructor records which concrete Python exception site it
stands for, named after the spec's error taxonomy.
-/

namespace Catalyst

/-- A Python runtime value as far as the contrastive core inspects it:
either an opaque atom (tensor, label, ...) identified by a natural
number, or a pair `(a, b)` — the only shape that the two-target
unpacking `embedding, projection = model(x)` accepts. -/
inductive Value where
  | atom : Nat → Value
  | pair : Value → Value → Value
deriving DecidableEq, Repr

/-- `true` exactly on values that unpack as a two-tuple. -/
def Value.isPair : Value → Bool
  | .pair _ _ => true
  | _ => false

/-- The exception sites of the embedded code.  Constructor names follow
the spec's error taxonomy; each comment records the concrete Python
exception raised at that site. -/
inductive PyError where
  /-- `KeyError` from `batch[key]` on a missing key. -/
  | keyError : String → PyError
  /-- `AssertionError` from `assert len(batch) == 3` in `_process_batch`. -/
  | shapeError : PyError
  /-- `TypeError`/`ValueError` from unpacking a model result that is not a
  two-tuple in `_process_input`. -/
  | contractViolationError : PyError
  /-- `ValueError` raised by `ContrastiveDataset.__init__` when the
  transform configuration is ambiguous. -/
  | configurationError : PyError
  /-- An exception raised inside the user-supplied model itself. -/
  | modelError : Nat → PyError
deriving DecidableEq, Repr

/-- A Python `dict` with string keys, as an insertion-ordered association
list (CPython dictionaries preserve insertion order and hold each key at
most once, so the lists arising from the embedding never repeat a key). -/
abbrev Dict (α : Type) := List (String × α)

/-- A batch dictionary: string keys to values. -/
abbrev Batch := Dict Value

/-- Dictionary lookup (`d.get(k)`): first entry whose key matches. -/
def Dict.lookup {α : Type} : Dict α → String → Option α
  | [], _ => none
  | (k', v) :: rest, k => if k' = k then some v else Dict.lookup rest k

/-- Replace the value stored under `k` wherever `k` occurs, keeping the
entry's position (the in-place half of a Python dictionary update). -/
def Dict.overwrite {α : Type} : Dict α → String → α → Dict α
  | [], _, _ => []
  | (k', v') :: rest, k, v =>
      if k' = k then (k', v) :: Dict.overwrite rest k v
      else (k', v') :: Dict.overwrite rest k v

/-- Dictionary update `d[k] = v` (also the effect of a `k: v` entry in a
`{**d, k: v}` literal): overwrite an existing key in place, append a
fresh key at the end. -/
def Dict.setKey {α : Type} (d : Dict α) (k : String) (v : α) : Dict α :=
  if d.any (fun kv => kv.1 = k) then Dict.overwrite d k v
  else d ++ [(k, v)]

/-- `batch[key]`: lookup that raises `KeyError` on a missing key. -/
def Dict.getItem (d : Batch) (k : String) : Except PyError Value :=
  match d.lookup k with
  | some v => .ok v
  | none => .error (.keyError k)

/-- The keys of a dictionary, in order. -/
def Dict.keys {α : Type} (d : Dict α) : List String :=
  d.map Prod.fst

/-- The configuration surface of `IContrastiveRunner.__init__`
(`contrastive.py` lines 133-148).  Source field names are `target_key`,
`loss_key`, `augemention_prefix` (sic), `projection_prefix`,
`embedding_prefix`; the `*_pfx` spellings stand for the `*_prefix`
names. -/
structure Config where
  target_key : String
  loss_key : String
  aug_pfx : String
  projection_pfx : String
  embedding_pfx : String
deriving DecidableEq, Repr

/-- The default configuration (`target`, `loss`, `aug`, `projection`,
`embedding`). -/
def defaultConfig : Config :=
  ⟨"target", "loss", "aug", "projection", "embedding"⟩

/-- A raw batch as delivered by the data loader: either a flat ordered
sequence (Python `tuple`/`list`) or an already keyed mapping. -/
inductive RawBatch where
  | flat : List Value → RawBatch
  | keyed : Batch → RawBatch
deriving DecidableEq, Repr

/-- `IContrastiveRunner._process_batch` (`contrastive.py` lines 150-158):
a flat batch must have exactly 3 elements (`assert len(batch) == 3`,
modelled by `shapeError`) and is remapped to
`{aug_left: v0, aug_right: v1, target: v2}`; a mapping passes through
unchanged. -/
def processBatch (cfg : Config) : RawBatch → Except PyError Batch
  | .flat [v0, v1, v2] =>
      .ok [(cfg.aug_pfx ++ "_left", v0), (cfg.aug_pfx ++ "_right", v1),
           (cfg.target_key, v2)]
  | .flat _ => .error .shapeError
  | .keyed m => .ok m

/-- A user-supplied model: a callable on one view, which may itself raise.
A successful call returns a single `Value`; `_process_input` then
unpacks it as a two-tuple. -/
abbrev Model := Value → Except PyError Value

/-- The two-target unpacking `embedding, projection = r`: succeeds exactly
on a pair, raising the model-contract violation otherwise. -/
def unpack2 : Value → Except PyError (Value × Value)
  | .pair a b => .ok (a, b)
  | _ => .error .contractViolationError

/-- `IContrastiveRunner._process_input` (`contrastive.py` lines 160-172):
run the model on the left view, unpack `(embedding1, projection1)`, run
it on the right view, unpack `(embedding2, projection2)`, then build
`{**batch, projection_left: p1, projection_right: p2,
embedding_left: e1, embedding_right: e2}` — the four entries written in
the source's literal order, later entries winning on key collision. -/
def processInput (cfg : Config) (model : Model) (batch : Batch) :
    Except PyError Batch := do
  let x1 ← Dict.getItem batch (cfg.aug_pfx ++ "_left")
  let r1 ← model x1
  let (embedding1, projection1) ← unpack2 r1
  let x2 ← Dict.getItem batch (cfg.aug_pfx ++ "_right")
  let r2 ← model x2
  let (embedding2, projection2) ← unpack2 r2
  return Dict.setKey (Dict.setKey (Dict.setKey (Dict.setKey batch
      (cfg.projection_pfx ++ "_left") projection1)
      (cfg.projection_pfx ++ "_right") projection2)
      (cfg.embedding_pfx ++ "_left") embedding1)
      (cfg.embedding_pfx ++ "_right") embedding2

/-- A stochastic transform: consumes a random/state token `σ` together
with the sample and returns the augmented view and the advanced state.
Two invocations of the same transform thread the state through, which is
how the embedding expresses that the two views of one sample are two
separate, independent draws. -/
abbrev Transform (σ : Type) := σ → Value → Value × σ

/-- `ContrastiveDataset` after construction
(`contrastive_dataset.py` lines 39-61): the wrapped base dataset (its
`__getitem__`, returning `(sample, target)`) and the two per-view
transforms stored by `__init__`. -/
structure ContrastiveDataset (σ : Type) where
  dataset : Nat → Value × Value
  transform_left : Transform σ
  transform_right : Transform σ

/-- `ContrastiveDataset.__init__` (`contrastive_dataset.py` lines 39-61):
if both `transform_right` and `transform_left` are given they are
stored; otherwise, if `transforms` is given it is stored for both sides;
otherwise `ValueError` (the spec's `ConfigurationError`) is raised. -/
def contrastiveDatasetInit {σ : Type} (dataset : Nat → Value × Value)
    (transforms transform_left transform_right : Option (Transform σ)) :
    Except PyError (ContrastiveDataset σ) :=
  match transform_right, transform_left with
  | some tr, some tl => .ok ⟨dataset, tl, tr⟩
  | _, _ =>
    match transforms with
    | some t => .ok ⟨dataset, t, t⟩
    | none => .error .configurationError

/-- `ContrastiveDataset.__getitem__` (`contrastive_dataset.py` lines
67-79): fetch `(sample, target)` from the base dataset, apply the left
transform to the sample, then the right transform to the same sample
(the second invocation sees the state left by the first), and return
`{aug1: ..., aug2: ..., target: ...}` together with the final state. -/
def ContrastiveDataset.getItem {σ : Type} (self : ContrastiveDataset σ)
    (idx : Nat) (s : σ) : Batch × σ :=
  let st := self.dataset idx
  let a1 := self.transform_left s st.1
  let a2 := self.transform_right a1.2 st.1
  ([("aug1", a1.1), ("aug2", a2.1), ("target", st.2)], a2.2)

/-- Modelled from the spec: the callback classes
(`CriterionCallback`/`ICriterionCallback`, `OptimizerCallback`/
`IOptimizerCallback`, `SchedulerCallback`/`ISchedulerCallback`) and the
capability check `callback_isinstance` live outside the provided source
tree.  Per the spec's capability model (§9), a callback is a record of
the three role capabilities it declares plus the key parameters the
concrete default callbacks store. -/
structure Callback where
  is_criterion : Bool
  is_optimizer : Bool
  is_scheduler : Bool
  input_key : Option String
  target_key : Option String
  metric_key : Option String
  loader_key : Option String
deriving DecidableEq, Repr

/-- Modelled from the spec: `CriterionCallback(input_key, target_key,
metric_key)` — declares the criterion role and stores its keys. -/
def CriterionCallback (input_key target_key metric_key : String) : Callback :=
  ⟨true, false, false, some input_key, some target_key, some metric_key, none⟩

/-- Modelled from the spec: `OptimizerCallback(metric_key)` — declares the
optimizer role. -/
def OptimizerCallback (metric_key : String) : Callback :=
  ⟨false, true, false, none, none, some metric_key, none⟩

/-- Modelled from the spec: `SchedulerCallback(loader_key, metric_key)` —
declares the scheduler role. -/
def SchedulerCallback (loader_key metric_key : String) : Callback :=
  ⟨false, false, true, none, none, some metric_key, some loader_key⟩

/-- An ordered callback dictionary (`OrderedDict[str, Callback]`). -/
abbrev CallbackDict := Dict Callback

/-- The `is_callback_exists` lambda of `get_callbacks`
(`contrastive.py` lines 282-284): does any registered callback declare
the given role (`callback_isinstance` against the role's interface)? -/
def isCallbackExists (cbs : CallbackDict) (role : Callback → Bool) : Bool :=
  cbs.any (fun kv => role kv.2)

/-- The runner state that `get_callbacks` consults: which of the three
components are configured (`isinstance(self._criterion, Criterion)` and
friends, modelled as presence flags) and the validation loader/metric
used by the injected scheduler callback. -/
structure Components where
  has_criterion : Bool
  has_optimizer : Bool
  has_scheduler : Bool
  valid_loader : String
  valid_metric : String
deriving DecidableEq, Repr

/-- `ContrastiveRunner.get_callbacks` (`contrastive.py` lines 271-299)
applied to the callbacks returned by `super().get_callbacks(stage)`
(the caller-registered set, passed in as `callbacks`): for each of the
three roles in order — criterion, optimizer, scheduler — if the
component is configured and no callback in the current dictionary
declares the role, store a default callback under the fixed key
(`callbacks["_criterion"] = CriterionCallback(...)`, etc.).  Each
existence check runs against the dictionary as already updated by the
earlier injections, as the Python closure does.  The injected criterion
callback uses the literal source keys
`f"{projection_prefix}_1"` / `f"{projection_prefix}_2"`. -/
def getCallbacks (cfg : Config) (comp : Components)
    (callbacks : CallbackDict) : CallbackDict :=
  let cbs1 :=
    if comp.has_criterion && !(isCallbackExists callbacks Callback.is_criterion)
    then Dict.setKey callbacks "_criterion"
      (CriterionCallback (cfg.projection_pfx ++ "_1")
        (cfg.projection_pfx ++ "_2") cfg.loss_key)
    else callbacks
  let cbs2 :=
    if comp.has_optimizer && !(isCallbackExists cbs1 Callback.is_optimizer)
    then Dict.setKey cbs1 "_optimizer" (OptimizerCallback cfg.loss_key)
    else cbs1
  let cbs3 :=
    if comp.has_scheduler && !(isCallbackExists cbs2 Callback.is_scheduler)
    then Dict.setKey cbs2 "_scheduler"
      (SchedulerCallback comp.valid_loader comp.valid_metric)
    else cbs2
  cbs3

/-! ## Concrete fixtures used by witnesses -/

/-- A concrete base dataset: sample `atom idx`, target `atom (idx + 100)`. -/
def witnessBase (idx : Nat) : Value × Value := (.atom idx, .atom (idx + 100))

/-- A stateful transform pairing the sample with the current state token. -/
def witnessLeft : Transform Nat := fun s v => (.pair v (.atom s), s + 1)

/-- A stateful transform pairing the state token with the sample. -/
def witnessRight : Transform Nat := fun s v => (.pair (.atom s) v, s + 10)

/-- A shared transform: identity on the sample. -/
def witnessShared : Transform Nat := fun s v => (v, s)

/-- A model duplicating its input into `(embedding, projection)`. -/
def duplicateModel : Model := fun v => .ok (.pair v v)

/-- A model returning a single value, violating the two-tuple contract. -/
def scalarModel : Model := fun v => .ok v

/-- A model that raises on every input. -/
def raisingModel : Model := fun _ => .error (.modelError 7)

/-- A normalized batch under default naming. -/
def witnessBatch : Batch :=
  [("aug_left", .atom 0), ("aug_right", .atom 1), ("target", .atom 2)]

/-- A batch that already carries the key `projection_left`, colliding with
the default projection prefix. -/
def collisionBatch : Batch :=
  [("aug_left", .atom 0), ("aug_right", .atom 1), ("projection_left", .atom 9)]

/-- A batch that already carries the key `embedding_right`, colliding with
the default embedding prefix. -/
def collisionBatchEmb : Batch :=
  [("aug_left", .atom 0), ("aug_right", .atom 1), ("embedding_right", .atom 9)]

/-- Two caller-supplied callbacks that both declare the criterion role. -/
def twoCriterionCallbacks : CallbackDict :=
  [("first", CriterionCallback "projection_left" "projection_right" "loss"),
   ("second", CriterionCallback "embedding_left" "embedding_right" "loss")]

/-! ## Dictionary lemmas -/

theorem Dict.lookup_append {α : Type} (d1 d2 : Dict α) (k : String) :
    Dict.lookup (d1 ++ d2) k =
      match Dict.lookup d1 k with
      | some v => some v
      | none => Dict.lookup d2 k := by
  induction d1 with
  | nil => simp [Dict.lookup]
  | cons kv rest ih =>
    by_cases hk : kv.1 = k
    · simp [Dict.lookup, hk]
    · simpa [Dict.lookup, hk] using ih

theorem Dict.lookup_overwrite_self {α : Type} (d : Dict α) (k : String) (v : α)
    (h : d.any (fun kv => kv.1 = k) = true) :
    Dict.lookup (Dict.overwrite d k v) k = some v := by
  induction d with
  | nil => simp at h
  | cons kv rest ih =>
    obtain ⟨k1, v1⟩ := kv
    by_cases hk : k1 = k
    · subst hk
      simp [Dict.overwrite, Dict.lookup]
    · simp only [List.any_cons, decide_eq_true_eq, Bool.or_eq_true] at h
      rcases h with h | h
      · exact absurd h hk
      · simp [Dict.overwrite, Dict.lookup, hk, ih h]

theorem Dict.lookup_overwrite_ne {α : Type} (d : Dict α) (k k' : String) (v : α)
    (h : k' ≠ k) :
    Dict.lookup (Dict.overwrite d k v) k' = Dict.lookup d k' := by
  induction d with
  | nil => simp [Dict.overwrite]
  | cons kv rest ih =>
    obtain ⟨k1, v1⟩ := kv
    by_cases hk : k1 = k
    · subst hk
      simp [Dict.overwrite, Dict.lookup, Ne.symm h, ih]
    · simp [Dict.overwrite, Dict.lookup, hk, ih]

theorem Dict.lookup_eq_none_of_not_any {α : Type} (d : Dict α) (k : String)
    (h : ¬ d.any (fun kv => kv.1 = k) = true) :
    Dict.lookup d k = none := by
  induction d with
  | nil => simp [Dict.lookup]
  | cons kv rest ih =>
    obtain ⟨k1, v1⟩ := kv
    simp only [List.any_cons, Bool.or_eq_true, decide_eq_true_eq] at h
    push_neg at h
    simp only [Dict.lookup, if_neg h.1]
    exact ih (by simpa using h.2)

/-- After `d[k] = v`, looking up `k` yields `v`. -/
theorem Dict.lookup_setKey_self {α : Type} (d : Dict α) (k : String) (v : α) :
    Dict.lookup (Dict.setKey d k v) k = some v := by
  unfold Dict.setKey
  by_cases h : d.any (fun kv => kv.1 = k) = true
  · simpa [h] using Dict.lookup_overwrite_self d k v h
  · have hnone : Dict.lookup d k = none := Dict.lookup_eq_none_of_not_any d k h
    simp [h, Dict.lookup_append, hnone, Dict.lookup]

/-- After `d[k] = v`, looking up any other key is unchanged. -/
theorem Dict.lookup_setKey_ne {α : Type} (d : Dict α) (k k' : String) (v : α)
    (h : k' ≠ k) :
    Dict.lookup (Dict.setKey d k v) k' = Dict.lookup d k' := by
  unfold Dict.setKey
  by_cases hany : d.any (fun kv => kv.1 = k) = true
  · simpa [hany] using Dict.lookup_overwrite_ne d k k' v h
  · have hkk : ¬ (k = k') := fun hc => h hc.symm
    rw [if_neg hany, Dict.lookup_append]
    simp only [Dict.lookup, if_neg hkk]
    cases Dict.lookup d k' <;> rfl

/-- Membership in the key list decides the `setKey` branch. -/
theorem Dict.any_key_eq_mem_keys {α : Type} (d : Dict α) (k : String) :
    d.any (fun kv => kv.1 = k) = true ↔ k ∈ Dict.keys d := by
  simp only [List.any_eq_true, decide_eq_true_eq, Dict.keys, List.mem_map]

/-- Setting a key absent from `d` appends the new entry at the end. -/
theorem Dict.setKey_of_not_mem {α : Type} (d : Dict α) (k : String) (v : α)
    (h : k ∉ Dict.keys d) :
    Dict.setKey d k v = d ++ [(k, v)] := by
  unfold Dict.setKey
  rw [if_neg]
  intro hc
  exact h ((Dict.any_key_eq_mem_keys d k).mp hc)

theorem isCallbackExists_append (d1 d2 : CallbackDict) (role : Callback → Bool) :
    isCallbackExists (d1 ++ d2) role
      = (isCallbackExists d1 role || isCallbackExists d2 role) := by
  simp [isCallbackExists, List.any_append]

/-- A key present before a `setKey` is still present after it. -/
theorem Dict.isSome_lookup_setKey_mono {α : Type} (d : Dict α) (k k' : String)
    (v : α) (h : (Dict.lookup d k').isSome = true) :
    (Dict.lookup (Dict.setKey d k v) k').isSome = true := by
  by_cases hk : k' = k
  · subst hk
    rw [Dict.lookup_setKey_self]
    rfl
  · rw [Dict.lookup_setKey_ne d k k' v hk]
    exact h

theorem Dict.isSome_lookup_setKey_self {α : Type} (d : Dict α) (k : String)
    (v : α) : (Dict.lookup (Dict.setKey d k v) k).isSome = true := by
  rw [Dict.lookup_setKey_self]
  rfl

/-! ## String-key disequalities -/

theorem String.append_ne_of_ne {s t : String} (u : String) (h : s ≠ t) :
    s ++ u ≠ t ++ u := by
  intro hc
  apply h
  apply String.ext
  have hdata : s.data ++ u.data = t.data ++ u.data := by
    simpa [String.data_append] using congrArg String.data hc
  exact List.append_cancel_right hdata

/-- No `..._left` key ever coincides with a `..._right` key, whatever the
prefixes: the reversed character lists start `tf...` versus `th...`. -/
theorem left_key_ne_right_key (s t : String) : s ++ "_left" ≠ t ++ "_right" := by
  intro hc
  have hdata : s.data ++ ("_left" : String).data
      = t.data ++ ("_right" : String).data := by
    simpa [String.data_append] using congrArg String.data hc
  have hrev := congrArg List.reverse hdata
  simp only [List.reverse_append] at hrev
  have h2 := congrArg (fun l => l.take 2) hrev
  simp only at h2
  rw [List.take_append_of_le_length (by decide),
    List.take_append_of_le_length (by decide)] at h2
  revert h2
  decide

/-! ## Reduction lemmas for the dual-branch forward -/

theorem unpack2_of_not_pair (v : Value) (h : v.isPair = false) :
    unpack2 v = .error .contractViolationError := by
  cases v with
  | atom n => rfl
  | pair a b => simp [Value.isPair] at h

/-- The happy path of `_process_input`: both keys resolve and both model
calls return pairs, so the result is the input batch with the four
enrichment keys written in source order. -/
theorem processInput_ok (cfg : Config) (model : Model) (b : Batch)
    (x1 x2 e1 p1 e2 p2 : Value)
    (h1 : Dict.lookup b (cfg.aug_pfx ++ "_left") = some x1)
    (h2 : Dict.lookup b (cfg.aug_pfx ++ "_right") = some x2)
    (hm1 : model x1 = .ok (.pair e1 p1))
    (hm2 : model x2 = .ok (.pair e2 p2)) :
    processInput cfg model b =
      .ok (Dict.setKey (Dict.setKey (Dict.setKey (Dict.setKey b
        (cfg.projection_pfx ++ "_left") p1)
        (cfg.projection_pfx ++ "_right") p2)
        (cfg.embedding_pfx ++ "_left") e1)
        (cfg.embedding_pfx ++ "_right") e2) := by
  simp [processInput, Dict.getItem, h1, h2, hm1, hm2, unpack2, bind,
    Except.bind, Functor.map, Except.map, pure, Except.pure]

/-- If the model raises on the left view, `_process_input` propagates the
error (and, the output dictionary being built only after both calls, no
enrichment key is ever written). -/
theorem processInput_error_left (cfg : Config) (model : Model) (b : Batch)
    (x1 : Value) (err : PyError)
    (h1 : Dict.lookup b (cfg.aug_pfx ++ "_left") = some x1)
    (hm1 : model x1 = .error err) :
    processInput cfg model b = .error err := by
  simp [processInput, Dict.getItem, h1, hm1, bind, Except.bind]

/-- If the model raises on the right view, `_process_input` propagates the
error. -/
theorem processInput_error_right (cfg : Config) (model : Model) (b : Batch)
    (x1 x2 e1 p1 : Value) (err : PyError)
    (h1 : Dict.lookup b (cfg.aug_pfx ++ "_left") = some x1)
    (h2 : Dict.lookup b (cfg.aug_pfx ++ "_right") = some x2)
    (hm1 : model x1 = .ok (.pair e1 p1))
    (hm2 : model x2 = .error err) :
    processInput cfg model b = .error err := by
  simp [processInput, Dict.getItem, h1, h2, hm1, hm2, unpack2, bind,
    Except.bind, Functor.map, Except.map, pure, Except.pure]

/-! ## Callback auto-wiring lemmas -/

theorem Dict.keys_append {α : Type} (d1 d2 : Dict α) :
    Dict.keys (d1 ++ d2) = Dict.keys d1 ++ Dict.keys d2 := by
  simp [Dict.keys]

/-- The role-injection step of `get_callbacks`: when the fixed key is
fresh, the conditional `callbacks[key] = cb` is an append of the
conditional singleton. -/
theorem inject_eq_append (cond : Bool) (role : Callback → Bool) (key : String)
    (cb : Callback) (cbs : CallbackDict) (h : key ∉ Dict.keys cbs) :
    (if cond && !(isCallbackExists cbs role) then Dict.setKey cbs key cb
      else cbs)
      = cbs ++ (if cond && !(isCallbackExists cbs role) then [(key, cb)]
        else []) := by
  cases cond && !(isCallbackExists cbs role)
  · simp
  · simp [Dict.setKey_of_not_mem _ _ _ h]

/-- Appending a conditional singleton that does not declare `role2` leaves
the capability check for `role2` unchanged. -/
theorem exists_append_ite_other (cbs : CallbackDict) (A : Bool) (key : String)
    (cb : Callback) (role2 : Callback → Bool) (hcb : role2 cb = false) :
    isCallbackExists (cbs ++ (if A then [(key, cb)] else [])) role2
      = isCallbackExists cbs role2 := by
  cases A <;> simp [isCallbackExists_append, isCallbackExists, hcb]

/-- A fresh key stays fresh after appending a conditional singleton under
a different key. -/
theorem not_mem_keys_append_ite (cbs : CallbackDict) (A : Bool)
    (k key : String) (cb : Callback) (hne : k ≠ key)
    (h : k ∉ Dict.keys cbs) :
    k ∉ Dict.keys (cbs ++ (if A then [(key, cb)] else [])) := by
  cases A <;> simp [Dict.keys_append, Dict.keys, h, hne] <;>
    simpa [Dict.keys] using h

/-- `get_callbacks` changes nothing on a callback set in which every
configured component's role is already declared by some callback. -/
theorem getCallbacks_eq_self (cfg : Config) (comp : Components)
    (D : CallbackDict)
    (h1 : comp.has_criterion = true →
      isCallbackExists D Callback.is_criterion = true)
    (h2 : comp.has_optimizer = true →
      isCallbackExists D Callback.is_optimizer = true)
    (h3 : comp.has_scheduler = true →
      isCallbackExists D Callback.is_scheduler = true) :
    getCallbacks cfg comp D = D := by
  have c1 : (comp.has_criterion
      && !(isCallbackExists D Callback.is_criterion)) = false := by
    cases hcr : comp.has_criterion with
    | false => rfl
    | true =>
      rw [h1 hcr]
      rfl
  have c2 : (comp.has_optimizer
      && !(isCallbackExists D Callback.is_optimizer)) = false := by
    cases hcr : comp.has_optimizer with
    | false => rfl
    | true =>
      rw [h2 hcr]
      rfl
  have c3 : (comp.has_scheduler
      && !(isCallbackExists D Callback.is_scheduler)) = false := by
    cases hcr : comp.has_scheduler with
    | false => rfl
    | true =>
      rw [h3 hcr]
      rfl
  simp [getCallbacks, c1, c2, c3]

/-! ## Claim theorems -/

/-- C4: for every flat (tuple/list) batch, normalization requires exactly
3 elements — failing with the shape error (`assert len(batch) == 3`)
when the length differs from 3 — and on length 3 returns the mapping
`{aug_left: v0, aug_right: v1, target: v2}`. -/
theorem flat_batch_requires_exactly_three (cfg : Config) (vs : List Value) :
    (vs.length ≠ 3 → processBatch cfg (.flat vs) = .error .shapeError) ∧
    (∀ v0 v1 v2 : Value, vs = [v0, v1, v2] →
      processBatch cfg (.flat vs) =
        .ok [(cfg.aug_pfx ++ "_left", v0), (cfg.aug_pfx ++ "_right", v1),
             (cfg.target_key, v2)]) := by
  constructor
  · intro h
    match vs with
    | [] => rfl
    | [_] => rfl
    | [_, _] => rfl
    | [_, _, _] => exact absurd rfl h
    | _ :: _ :: _ :: _ :: _ => rfl
  · rintro v0 v1 v2 rfl
    rfl

/-- Witness for C4 at concrete inputs: a 2-element flat batch fails with
the shape error, and a 3-element flat batch is remapped. -/
theorem flat_batch_requires_exactly_three_witness :
    processBatch defaultConfig (.flat [.atom 0, .atom 1]) = .error .shapeError ∧
    processBatch defaultConfig (.flat [.atom 0, .atom 1, .atom 2]) =
      .ok [(defaultConfig.aug_pfx ++ "_left", .atom 0),
           (defaultConfig.aug_pfx ++ "_right", .atom 1),
           (defaultConfig.target_key, .atom 2)] :=
  ⟨(flat_batch_requires_exactly_three defaultConfig [.atom 0, .atom 1]).1
      (by decide),
   (flat_batch_requires_exactly_three defaultConfig
      [.atom 0, .atom 1, .atom 2]).2 (.atom 0) (.atom 1) (.atom 2) rfl⟩

/-- C6: batch normalization is idempotent — a batch that is already a
mapping passes through unchanged, so normalizing the output of a
successful normalization is a no-op. -/
theorem normalize_idempotent (cfg : Config) (b : RawBatch) (m : Batch) :
    (∀ m' : Batch, processBatch cfg (.keyed m') = .ok m') ∧
    (processBatch cfg b = .ok m → processBatch cfg (.keyed m) = .ok m) :=
  ⟨fun _ => rfl, fun _ => rfl⟩

/-- Witness for C6: normalizing the result of normalizing a flat triple is
a no-op. -/
theorem normalize_idempotent_witness :
    processBatch defaultConfig
      (.keyed [(defaultConfig.aug_pfx ++ "_left", .atom 0),
               (defaultConfig.aug_pfx ++ "_right", .atom 1),
               (defaultConfig.target_key, .atom 2)]) =
      .ok [(defaultConfig.aug_pfx ++ "_left", .atom 0),
           (defaultConfig.aug_pfx ++ "_right", .atom 1),
           (defaultConfig.target_key, .atom 2)] :=
  (normalize_idempotent defaultConfig (.flat [.atom 0, .atom 1, .atom 2])
    [(defaultConfig.aug_pfx ++ "_left", .atom 0),
     (defaultConfig.aug_pfx ++ "_right", .atom 1),
     (defaultConfig.target_key, .atom 2)]).2 rfl

/-- C3: if the model applied to the left view (or, the left call having
honoured the contract, to the right view) returns a value that is not a
two-tuple, the dual-branch forward fails with the contract violation. -/
theorem model_contract_violation (cfg : Config) (model : Model) (b : Batch) :
    (∀ x1 v : Value, Dict.lookup b (cfg.aug_pfx ++ "_left") = some x1 →
      model x1 = .ok v → v.isPair = false →
      processInput cfg model b = .error .contractViolationError) ∧
    (∀ x1 x2 e1 p1 v : Value,
      Dict.lookup b (cfg.aug_pfx ++ "_left") = some x1 →
      Dict.lookup b (cfg.aug_pfx ++ "_right") = some x2 →
      model x1 = .ok (.pair e1 p1) → model x2 = .ok v → v.isPair = false →
      processInput cfg model b = .error .contractViolationError) := by
  constructor
  · intro x1 v h1 hm hv
    simp [processInput, Dict.getItem, h1, hm, unpack2_of_not_pair v hv,
      bind, Except.bind]
  · intro x1 x2 e1 p1 v h1 h2 hm1 hm2 hv
    cases v with
    | pair a c => simp [Value.isPair] at hv
    | atom n =>
      simp [processInput, Dict.getItem, h1, h2, hm1, hm2, unpack2,
        bind, Except.bind, Functor.map, Except.map]

/-- Witness for C3: a model returning its input unchanged (a single value,
not a pair) makes the forward fail with the contract violation. -/
theorem model_contract_violation_witness :
    Dict.lookup witnessBatch (defaultConfig.aug_pfx ++ "_left")
      = some (.atom 0) ∧
    scalarModel (.atom 0) = .ok (.atom 0) ∧
    Value.isPair (.atom 0) = false ∧
    processInput defaultConfig scalarModel witnessBatch
      = .error .contractViolationError :=
  ⟨rfl, rfl, rfl,
   (model_contract_violation defaultConfig scalarModel witnessBatch).1
     (.atom 0) (.atom 0) rfl rfl rfl⟩

/-- C8: constructing the paired-augmentation dataset fails with the
configuration error exactly when neither `transforms` nor both of
`transform_left`/`transform_right` are supplied, and succeeds whenever
either configuration mode is fully specified. -/
theorem contrastive_dataset_configuration (σ : Type)
    (dataset : Nat → Value × Value) (ts tl tr : Option (Transform σ)) :
    (ts = none → (tl = none ∨ tr = none) →
      contrastiveDatasetInit dataset ts tl tr = .error .configurationError) ∧
    ((ts.isSome = true ∨ (tl.isSome = true ∧ tr.isSome = true)) →
      ∃ d, contrastiveDatasetInit dataset ts tl tr = .ok d) := by
  constructor
  · rintro rfl h
    cases tr with
    | none => cases tl <;> rfl
    | some t =>
      cases tl with
      | none => rfl
      | some t' => rcases h with h | h <;> simp at h
  · intro h
    rcases h with h | ⟨h1, h2⟩
    · obtain ⟨t0, rfl⟩ := Option.isSome_iff_exists.mp h
      cases tr <;> cases tl <;> exact ⟨_, rfl⟩
    · obtain ⟨t1, rfl⟩ := Option.isSome_iff_exists.mp h1
      obtain ⟨t2, rfl⟩ := Option.isSome_iff_exists.mp h2
      exact ⟨_, rfl⟩

/-- Witness for C8: supplying nothing fails with the configuration error;
supplying only `transforms` succeeds. -/
theorem contrastive_dataset_configuration_witness :
    contrastiveDatasetInit witnessBase (none : Option (Transform Nat)) none none
      = .error .configurationError ∧
    ∃ d, contrastiveDatasetInit witnessBase
      (some witnessShared) none none = .ok d :=
  ⟨(contrastive_dataset_configuration Nat witnessBase none none none).1
      rfl (Or.inl rfl),
   (contrastive_dataset_configuration Nat witnessBase
      (some witnessShared) none none).2 (Or.inl rfl)⟩

/-- C10: a lone per-view transform supplied together with `transforms` is
silently ignored — construction succeeds and both stored transforms are
the shared one; the per-view pair takes precedence only when both
per-view transforms are supplied. -/
theorem lone_per_view_transform_ignored (σ : Type)
    (dataset : Nat → Value × Value) (t u w : Transform σ) :
    contrastiveDatasetInit dataset (some t) (some u) none
        = .ok ⟨dataset, t, t⟩ ∧
    contrastiveDatasetInit dataset (some t) none (some w)
        = .ok ⟨dataset, t, t⟩ ∧
    contrastiveDatasetInit dataset (some t) (some u) (some w)
        = .ok ⟨dataset, u, w⟩ :=
  ⟨rfl, rfl, rfl⟩

/-- C7: fetching index `idx` returns a record with exactly the keys
`aug1`, `aug2`, `target`; `target` is the base target at `idx`; `aug1`
is the left transform applied to the base sample; `aug2` is the right
transform applied to the same sample as a second, separate invocation
(it consumes the state left by the first); and when both per-view
transforms were supplied at construction, they — not `transforms` — are
the ones applied. -/
theorem paired_fetch_record (σ : Type) (dataset : Nat → Value × Value)
    (ts : Option (Transform σ)) (tl tr : Transform σ)
    (d : ContrastiveDataset σ)
    (hd : contrastiveDatasetInit dataset ts (some tl) (some tr) = .ok d)
    (idx : Nat) (s : σ) :
    Dict.keys (d.getItem idx s).1 = ["aug1", "aug2", "target"] ∧
    Dict.lookup (d.getItem idx s).1 "target" = some (dataset idx).2 ∧
    Dict.lookup (d.getItem idx s).1 "aug1"
      = some (tl s (dataset idx).1).1 ∧
    Dict.lookup (d.getItem idx s).1 "aug2"
      = some (tr (tl s (dataset idx).1).2 (dataset idx).1).1 ∧
    (d.getItem idx s).2 = (tr (tl s (dataset idx).1).2 (dataset idx).1).2 := by
  have hd' : ContrastiveDataset.mk dataset tl tr = d := by
    simpa [contrastiveDatasetInit] using hd
  subst hd'
  exact ⟨rfl, rfl, rfl, rfl, rfl⟩

/-- Witness for C7 at a concrete dataset, transforms, index and state. -/
theorem paired_fetch_record_witness :
    Dict.keys ((ContrastiveDataset.mk witnessBase witnessLeft
        witnessRight).getItem 3 5).1 = ["aug1", "aug2", "target"] ∧
    Dict.lookup ((ContrastiveDataset.mk witnessBase witnessLeft
        witnessRight).getItem 3 5).1 "target" = some (witnessBase 3).2 ∧
    Dict.lookup ((ContrastiveDataset.mk witnessBase witnessLeft
        witnessRight).getItem 3 5).1 "aug1"
      = some (witnessLeft 5 (witnessBase 3).1).1 ∧
    Dict.lookup ((ContrastiveDataset.mk witnessBase witnessLeft
        witnessRight).getItem 3 5).1 "aug2"
      = some (witnessRight (witnessLeft 5 (witnessBase 3).1).2
          (witnessBase 3).1).1 ∧
    ((ContrastiveDataset.mk witnessBase witnessLeft
        witnessRight).getItem 3 5).2
      = (witnessRight (witnessLeft 5 (witnessBase 3).1).2 (witnessBase 3).1).2 :=
  paired_fetch_record Nat witnessBase (some witnessShared)
    witnessLeft witnessRight ⟨witnessBase, witnessLeft, witnessRight⟩ rfl 3 5

/-- C2 counterexample: a batch already carrying `projection_left` does NOT
make the dual-branch forward fail — the forward returns `.ok` and
silently overwrites the colliding key (`atom 9` became `atom 0`),
refuting `fails with KeyCollisionError`. -/
theorem key_collision_no_error_counterexample :
    processInput defaultConfig duplicateModel collisionBatch =
      .ok [("aug_left", .atom 0), ("aug_right", .atom 1),
           ("projection_left", .atom 0), ("projection_right", .atom 1),
           ("embedding_left", .atom 0), ("embedding_right", .atom 1)] := by
  rfl

/-- C2 (amended): when the batch's existing keys alias the configured
prefixes, the dual-branch forward does not fail; it succeeds and
overwrites the colliding enrichment key with the newly computed value
(last write wins). -/
theorem key_collision_overwrites (cfg : Config) (model : Model) (b : Batch)
    (x1 x2 e1 p1 e2 p2 : Value)
    (h1 : Dict.lookup b (cfg.aug_pfx ++ "_left") = some x1)
    (h2 : Dict.lookup b (cfg.aug_pfx ++ "_right") = some x2)
    (hm1 : model x1 = .ok (.pair e1 p1))
    (hm2 : model x2 = .ok (.pair e2 p2))
    (hcol : (Dict.lookup b (cfg.projection_pfx ++ "_left")).isSome = true)
    (hpe : cfg.projection_pfx ≠ cfg.embedding_pfx) :
    ∃ b', processInput cfg model b = .ok b' ∧
      Dict.lookup b' (cfg.projection_pfx ++ "_left") = some p1 := by
  refine ⟨_, processInput_ok cfg model b x1 x2 e1 p1 e2 p2 h1 h2 hm1 hm2, ?_⟩
  rw [Dict.lookup_setKey_ne _ _ _ _
      (left_key_ne_right_key cfg.projection_pfx cfg.embedding_pfx)]
  rw [Dict.lookup_setKey_ne _ _ _ _ (String.append_ne_of_ne "_left" hpe)]
  rw [Dict.lookup_setKey_ne _ _ _ _
      (left_key_ne_right_key cfg.projection_pfx cfg.projection_pfx)]
  exact Dict.lookup_setKey_self _ _ _

/-- Witness for C2 (amended) at the concrete collision batch. -/
theorem key_collision_overwrites_witness :
    (Dict.lookup collisionBatch
        (defaultConfig.projection_pfx ++ "_left")).isSome = true ∧
    ∃ b', processInput defaultConfig duplicateModel collisionBatch = .ok b' ∧
      Dict.lookup b' (defaultConfig.projection_pfx ++ "_left")
        = some (.atom 0) :=
  ⟨rfl,
   key_collision_overwrites defaultConfig duplicateModel collisionBatch
     (.atom 0) (.atom 1) (.atom 0) (.atom 0) (.atom 1) (.atom 1)
     rfl rfl rfl rfl rfl (by decide)⟩

/-- C5 counterexample: on a batch already carrying `embedding_right`
(value `atom 9`), the forward succeeds but the original key's value is
altered to the model's output `atom 1`, refuting `the result contains
every original key with its value unaltered` as stated for every input
batch. -/
theorem enrichment_alters_colliding_key_counterexample :
    processInput defaultConfig duplicateModel collisionBatchEmb =
      .ok [("aug_left", .atom 0), ("aug_right", .atom 1),
           ("embedding_right", .atom 1),
           ("projection_left", .atom 0), ("projection_right", .atom 1),
           ("embedding_left", .atom 0)] := by
  rfl

/-- C5 (amended): the dual-branch forward is atomic — if either model
invocation raises, the error propagates and no batch (hence no
enrichment key) is produced; if both calls return pairs, the result
carries all four enrichment keys, and every key other than the four
enrichment keys — in particular every original key not aliased by the
configured prefixes — keeps its original value. -/
theorem atomic_enrichment (cfg : Config) (model : Model) (b : Batch)
    (x1 x2 : Value)
    (h1 : Dict.lookup b (cfg.aug_pfx ++ "_left") = some x1)
    (h2 : Dict.lookup b (cfg.aug_pfx ++ "_right") = some x2) :
    (∀ err : PyError, model x1 = .error err →
      processInput cfg model b = .error err) ∧
    (∀ (e1 p1 : Value) (err : PyError), model x1 = .ok (.pair e1 p1) →
      model x2 = .error err → processInput cfg model b = .error err) ∧
    (∀ e1 p1 e2 p2 : Value, model x1 = .ok (.pair e1 p1) →
      model x2 = .ok (.pair e2 p2) →
      ∃ b', processInput cfg model b = .ok b' ∧
        (Dict.lookup b' (cfg.projection_pfx ++ "_left")).isSome = true ∧
        (Dict.lookup b' (cfg.projection_pfx ++ "_right")).isSome = true ∧
        (Dict.lookup b' (cfg.embedding_pfx ++ "_left")).isSome = true ∧
        (Dict.lookup b' (cfg.embedding_pfx ++ "_right")).isSome = true ∧
        (∀ k : String, k ≠ cfg.projection_pfx ++ "_left" →
          k ≠ cfg.projection_pfx ++ "_right" →
          k ≠ cfg.embedding_pfx ++ "_left" →
          k ≠ cfg.embedding_pfx ++ "_right" →
          Dict.lookup b' k = Dict.lookup b k)) := by
  refine ⟨?_, ?_, ?_⟩
  · intro err hm1
    exact processInput_error_left cfg model b x1 err h1 hm1
  · intro e1 p1 err hm1 hm2
    exact processInput_error_right cfg model b x1 x2 e1 p1 err h1 h2 hm1 hm2
  · intro e1 p1 e2 p2 hm1 hm2
    refine ⟨_, processInput_ok cfg model b x1 x2 e1 p1 e2 p2 h1 h2 hm1 hm2,
      ?_, ?_, ?_, ?_, ?_⟩
    · exact Dict.isSome_lookup_setKey_mono _ _ _ _
        (Dict.isSome_lookup_setKey_mono _ _ _ _
          (Dict.isSome_lookup_setKey_mono _ _ _ _
            (Dict.isSome_lookup_setKey_self _ _ _)))
    · exact Dict.isSome_lookup_setKey_mono _ _ _ _
        (Dict.isSome_lookup_setKey_mono _ _ _ _
          (Dict.isSome_lookup_setKey_self _ _ _))
    · exact Dict.isSome_lookup_setKey_mono _ _ _ _
        (Dict.isSome_lookup_setKey_self _ _ _)
    · exact Dict.isSome_lookup_setKey_self _ _ _
    · intro k hk1 hk2 hk3 hk4
      rw [Dict.lookup_setKey_ne _ _ _ _ hk4, Dict.lookup_setKey_ne _ _ _ _ hk3,
        Dict.lookup_setKey_ne _ _ _ _ hk2, Dict.lookup_setKey_ne _ _ _ _ hk1]

/-- Witness for C5 (amended) at the concrete normalized batch. -/
theorem atomic_enrichment_witness :
    Dict.lookup witnessBatch (defaultConfig.aug_pfx ++ "_left")
      = some (.atom 0) ∧
    Dict.lookup witnessBatch (defaultConfig.aug_pfx ++ "_right")
      = some (.atom 1) ∧
    ((∀ err : PyError, duplicateModel (.atom 0) = .error err →
      processInput defaultConfig duplicateModel witnessBatch = .error err) ∧
    (∀ (e1 p1 : Value) (err : PyError),
      duplicateModel (.atom 0) = .ok (.pair e1 p1) →
      duplicateModel (.atom 1) = .error err →
      processInput defaultConfig duplicateModel witnessBatch = .error err) ∧
    (∀ e1 p1 e2 p2 : Value, duplicateModel (.atom 0) = .ok (.pair e1 p1) →
      duplicateModel (.atom 1) = .ok (.pair e2 p2) →
      ∃ b', processInput defaultConfig duplicateModel witnessBatch = .ok b' ∧
        (Dict.lookup b'
          (defaultConfig.projection_pfx ++ "_left")).isSome = true ∧
        (Dict.lookup b'
          (defaultConfig.projection_pfx ++ "_right")).isSome = true ∧
        (Dict.lookup b'
          (defaultConfig.embedding_pfx ++ "_left")).isSome = true ∧
        (Dict.lookup b'
          (defaultConfig.embedding_pfx ++ "_right")).isSome = true ∧
        (∀ k : String, k ≠ defaultConfig.projection_pfx ++ "_left" →
          k ≠ defaultConfig.projection_pfx ++ "_right" →
          k ≠ defaultConfig.embedding_pfx ++ "_left" →
          k ≠ defaultConfig.embedding_pfx ++ "_right" →
          Dict.lookup b' k = Dict.lookup witnessBatch k))) :=
  ⟨rfl, rfl,
   atomic_enrichment defaultConfig duplicateModel witnessBatch
     (.atom 0) (.atom 1) rfl rfl⟩

/-- C1 (code evaluation at the failing input): with a configured criterion
and an empty callback set, stage setup injects exactly one
`_criterion`-keyed callback — but its input/target keys are the literal
`projection_1`/`projection_2`, keys the dual-branch forward never
writes: the enriched batch carries `projection_left`/`projection_right`
(as the class docstring also shows) and has no `projection_1` key. -/
theorem criterion_autowire_numbered_keys :
    getCallbacks defaultConfig ⟨true, false, false, "train", "loss"⟩ [] =
      [("_criterion",
        CriterionCallback "projection_1" "projection_2" "loss")] ∧
    processInput defaultConfig duplicateModel witnessBatch =
      .ok [("aug_left", .atom 0), ("aug_right", .atom 1), ("target", .atom 2),
           ("projection_left", .atom 0), ("projection_right", .atom 1),
           ("embedding_left", .atom 0), ("embedding_right", .atom 1)] ∧
    Dict.lookup
      [("aug_left", Value.atom 0), ("aug_right", .atom 1), ("target", .atom 2),
       ("projection_left", .atom 0), ("projection_right", .atom 1),
       ("embedding_left", .atom 0), ("embedding_right", .atom 1)]
      "projection_1" = none ∧
    "projection_1" ≠ "projection_left" :=
  ⟨rfl, rfl, rfl, by decide⟩

/-- C9 counterexample: a caller registering two criterion-role callbacks
leaves two callbacks filling the criterion role after stage setup,
refuting `at most one callback fills each role` for every caller set. -/
theorem autowire_two_criterion_counterexample :
    List.countP (fun kv => (kv.2).is_criterion)
        (getCallbacks defaultConfig ⟨true, true, true, "valid", "loss"⟩
          twoCriterionCallbacks) = 2 ∧
    ¬ (List.countP (fun kv => (kv.2).is_criterion)
        (getCallbacks defaultConfig ⟨true, true, true, "valid", "loss"⟩
          twoCriterionCallbacks) ≤ 1) :=
  ⟨rfl, by decide⟩

/-- C9 (amended): provided the caller does not use the reserved keys
`_criterion`, `_optimizer`, `_scheduler`, stage setup appends after the
caller-supplied callbacks at most one default callback per role, each
injected exactly when its component is configured and no registered
callback already declares the role — so auto-wiring never duplicates a
role the caller filled, injects nothing for an absent component — and
running stage setup on its own output changes nothing (idempotence). -/
theorem autowire_characterization (cfg : Config) (comp : Components)
    (cbs : CallbackDict)
    (hc : "_criterion" ∉ Dict.keys cbs)
    (ho : "_optimizer" ∉ Dict.keys cbs)
    (hs : "_scheduler" ∉ Dict.keys cbs) :
    getCallbacks cfg comp cbs =
      cbs ++
      (if comp.has_criterion && !(isCallbackExists cbs Callback.is_criterion)
        then [("_criterion", CriterionCallback (cfg.projection_pfx ++ "_1")
          (cfg.projection_pfx ++ "_2") cfg.loss_key)] else []) ++
      (if comp.has_optimizer && !(isCallbackExists cbs Callback.is_optimizer)
        then [("_optimizer", OptimizerCallback cfg.loss_key)] else []) ++
      (if comp.has_scheduler && !(isCallbackExists cbs Callback.is_scheduler)
        then [("_scheduler", SchedulerCallback comp.valid_loader
          comp.valid_metric)] else []) ∧
    getCallbacks cfg comp (getCallbacks cfg comp cbs)
      = getCallbacks cfg comp cbs := by
  have hchar : getCallbacks cfg comp cbs =
      cbs ++
      (if comp.has_criterion && !(isCallbackExists cbs Callback.is_criterion)
        then [("_criterion", CriterionCallback (cfg.projection_pfx ++ "_1")
          (cfg.projection_pfx ++ "_2") cfg.loss_key)] else []) ++
      (if comp.has_optimizer && !(isCallbackExists cbs Callback.is_optimizer)
        then [("_optimizer", OptimizerCallback cfg.loss_key)] else []) ++
      (if comp.has_scheduler && !(isCallbackExists cbs Callback.is_scheduler)
        then [("_scheduler", SchedulerCallback comp.valid_loader
          comp.valid_metric)] else []) := by
    simp only [getCallbacks]
    rw [inject_eq_append comp.has_criterion Callback.is_criterion "_criterion"
      (CriterionCallback (cfg.projection_pfx ++ "_1")
        (cfg.projection_pfx ++ "_2") cfg.loss_key) cbs hc]
    rw [inject_eq_append comp.has_optimizer Callback.is_optimizer "_optimizer"
      (OptimizerCallback cfg.loss_key) _
      (not_mem_keys_append_ite cbs _ "_optimizer" "_criterion" _
        (by decide) ho)]
    rw [inject_eq_append comp.has_scheduler Callback.is_scheduler "_scheduler"
      (SchedulerCallback comp.valid_loader comp.valid_metric) _
      (not_mem_keys_append_ite _ _ "_scheduler" "_optimizer" _ (by decide)
        (not_mem_keys_append_ite cbs _ "_scheduler" "_criterion" _
          (by decide) hs))]
    rw [exists_append_ite_other cbs _ "_criterion" _ Callback.is_optimizer rfl]
    rw [exists_append_ite_other _ _ "_optimizer" _ Callback.is_scheduler rfl]
    rw [exists_append_ite_other cbs _ "_criterion" _ Callback.is_scheduler rfl]
  refine ⟨hchar, ?_⟩
  have hex1 : comp.has_criterion = true →
      isCallbackExists (getCallbacks cfg comp cbs)
        Callback.is_criterion = true := by
    intro hcr
    rw [hchar, isCallbackExists_append, isCallbackExists_append,
      isCallbackExists_append]
    cases hE : isCallbackExists cbs Callback.is_criterion with
    | true => simp
    | false =>
      rw [hcr]
      simp [isCallbackExists, CriterionCallback]
  have hex2 : comp.has_optimizer = true →
      isCallbackExists (getCallbacks cfg comp cbs)
        Callback.is_optimizer = true := by
    intro hcr
    rw [hchar, isCallbackExists_append, isCallbackExists_append,
      isCallbackExists_append]
    cases hE : isCallbackExists cbs Callback.is_optimizer with
    | true => simp
    | false =>
      rw [hcr]
      simp [isCallbackExists, OptimizerCallback]
  have hex3 : comp.has_scheduler = true →
      isCallbackExists (getCallbacks cfg comp cbs)
        Callback.is_scheduler = true := by
    intro hcr
    rw [hchar, isCallbackExists_append, isCallbackExists_append,
      isCallbackExists_append]
    cases hE : isCallbackExists cbs Callback.is_scheduler with
    | true => simp
    | false =>
      rw [hcr]
      simp [isCallbackExists, SchedulerCallback]
  exact getCallbacks_eq_self cfg comp (getCallbacks cfg comp cbs)
    hex1 hex2 hex3

/-- Witness for C9 (amended) at an empty caller callback set with all
three components configured. -/
theorem autowire_characterization_witness :
    ("_criterion" ∉ Dict.keys ([] : CallbackDict)) ∧
    (getCallbacks defaultConfig ⟨true, true, true, "valid", "loss"⟩ [] =
      ([] : CallbackDict) ++
      (if (true : Bool) && !(isCallbackExists [] Callback.is_criterion)
        then [("_criterion",
          CriterionCallback (defaultConfig.projection_pfx ++ "_1")
            (defaultConfig.projection_pfx ++ "_2") defaultConfig.loss_key)]
        else []) ++
      (if (true : Bool) && !(isCallbackExists [] Callback.is_optimizer)
        then [("_optimizer", OptimizerCallback defaultConfig.loss_key)]
        else []) ++
      (if (true : Bool) && !(isCallbackExists [] Callback.is_scheduler)
        then [("_scheduler", SchedulerCallback "valid" "loss")] else []) ∧
    getCallbacks defaultConfig ⟨true, true, true, "valid", "loss"⟩
        (getCallbacks defaultConfig ⟨true, true, true, "valid", "loss"⟩ [])
      = getCallbacks defaultConfig ⟨true, true, true, "valid", "loss"⟩ []) :=
  ⟨by decide,
   autowire_characterization defaultConfig ⟨true, true, true, "valid", "loss"⟩
     [] (by decide) (by decide) (by decide)⟩

end Catalyst
